import Mathlib

/-!
Shallow embedding of the `diameter-rs` client core: the Address AVP codec
(`src/avp/address.rs`) and the connection multiplexer / request machinery
(`src/client.rs`).  Byte streams are modelled as `List (Fin 256)`; fallible
Rust code returns an explicit result type; a Rust `todo!()` / slice-index
panic is modelled by a dedicated `abort` outcome, distinct from returned
error values.
-/

/-- Error type of the crate (`crate::error::Error`), restricted to the
variants the embedded code constructs: decode errors, client errors, and
I/O errors raised by `read_exact` on a truncated stream. -/
inductive Error where
  | DecodeError : String → Error
  | ClientError : String → Error
  | IoError : Error
deriving DecidableEq, Repr

/-- Outcome of running a piece of fallible Rust code: normal return,
a returned `Err` value, or a process abort (Rust `todo!()` or an
out-of-bounds slice index, both of which panic rather than return). -/
inductive RunResult (α : Type) where
  | ok : α → RunResult α
  | err : Error → RunResult α
  | abort : String → RunResult α
deriving DecidableEq, Repr

/-- A byte, as on the wire (`u8`). -/
abbrev Byte := Fin 256

/-- `u16::from_be_bytes([hi, lo])`. -/
def u16_from_be_bytes (hi lo : Byte) : Fin 65536 :=
  ⟨hi.val * 256 + lo.val, by have h1 := hi.isLt; have h2 := lo.isLt; omega⟩

/-- High byte of a big-endian `u16`, as produced by `Ipv6Addr::octets`. -/
def u16_hi (s : Fin 65536) : Byte :=
  ⟨s.val / 256, Nat.div_lt_of_lt_mul (by have := s.isLt; omega)⟩

/-- Low byte of a big-endian `u16`, as produced by `Ipv6Addr::octets`. -/
def u16_lo (s : Fin 65536) : Byte :=
  ⟨s.val % 256, Nat.mod_lt _ (by decide)⟩

/-- `std::net::Ipv4Addr`: four octets. -/
structure Ipv4Addr where
  o0 : Byte
  o1 : Byte
  o2 : Byte
  o3 : Byte
deriving DecidableEq, Repr

/-- `Ipv4Addr::octets()`. -/
def Ipv4Addr.octets (ip : Ipv4Addr) : List Byte :=
  [ip.o0, ip.o1, ip.o2, ip.o3]

/-- `std::net::Ipv6Addr`: eight 16-bit segments (the arguments of
`Ipv6Addr::new`). -/
structure Ipv6Addr where
  s0 : Fin 65536
  s1 : Fin 65536
  s2 : Fin 65536
  s3 : Fin 65536
  s4 : Fin 65536
  s5 : Fin 65536
  s6 : Fin 65536
  s7 : Fin 65536
deriving DecidableEq, Repr

/-- `Ipv6Addr::octets()`: the sixteen bytes, each segment big-endian. -/
def Ipv6Addr.octets (ip : Ipv6Addr) : List Byte :=
  [u16_hi ip.s0, u16_lo ip.s0, u16_hi ip.s1, u16_lo ip.s1,
   u16_hi ip.s2, u16_lo ip.s2, u16_hi ip.s3, u16_lo ip.s3,
   u16_hi ip.s4, u16_lo ip.s4, u16_hi ip.s5, u16_lo ip.s5,
   u16_hi ip.s6, u16_lo ip.s6, u16_hi ip.s7, u16_lo ip.s7]

/-- Modelled from the spec: `OctetString` (`src/avp/octetstring.rs` is not
in the sources); §3 describes E164 as a variable-length octet string, so it
is a byte sequence. -/
abbrev OctetString := List Byte

/-- `AddressValue` from `src/avp/address.rs`. -/
inductive AddressValue where
  | IPv4 : Ipv4Addr → AddressValue
  | IPv6 : Ipv6Addr → AddressValue
  | E164 : OctetString → AddressValue
deriving DecidableEq, Repr

/-- `AddressValue::E164` discriminator test (used to phrase round-trip
claims, which cover only the implemented IPv4/IPv6 variants). -/
def AddressValue.isE164 : AddressValue → Bool
  | .E164 _ => true
  | _ => false

/-- `pub struct Address(AddressValue)`. -/
structure Address where
  val : AddressValue
deriving DecidableEq, Repr

/-- `Address::new`. -/
def Address.new (value : AddressValue) : Address :=
  Address.mk value

/-- `Address::decode_from(reader, len)` over a byte-list reader.  Returns
the outcome paired with the bytes left unconsumed in the reader.  A failed
`read_exact` is an `IoError` (the remaining-stream component is then
irrelevant and given as `[]`).  The family discriminator `[0, 8]` (E164)
hits `todo!("E164 not implemented")`, an abort. -/
def Address.decode_from (bytes : List Byte) (len : Nat) :
    RunResult Address × List Byte :=
  match bytes with
  | b0 :: b1 :: rest =>
    if b0 = 0 ∧ b1 = 1 then
      if len ≠ 6 then (.err (.DecodeError "Invalid address length"), rest)
      else
        match rest with
        | a :: b :: c :: d :: rest2 =>
          (.ok (Address.new (.IPv4 ⟨a, b, c, d⟩)), rest2)
        | _ => (.err .IoError, [])
    else if b0 = 0 ∧ b1 = 2 then
      if len ≠ 18 then (.err (.DecodeError "Invalid address length"), rest)
      else
        match rest with
        | x0 :: x1 :: x2 :: x3 :: x4 :: x5 :: x6 :: x7 ::
          x8 :: x9 :: x10 :: x11 :: x12 :: x13 :: x14 :: x15 :: rest2 =>
          (.ok (Address.new (.IPv6
            ⟨u16_from_be_bytes x0 x1, u16_from_be_bytes x2 x3,
             u16_from_be_bytes x4 x5, u16_from_be_bytes x6 x7,
             u16_from_be_bytes x8 x9, u16_from_be_bytes x10 x11,
             u16_from_be_bytes x12 x13, u16_from_be_bytes x14 x15⟩)), rest2)
        | _ => (.err .IoError, [])
    else if b0 = 0 ∧ b1 = 8 then
      (.abort "E164 not implemented", rest)
    else
      (.err (.DecodeError "Unsupported address type"), rest)
  | _ => (.err .IoError, [])

/-- `Address::encode_to(writer)`: the bytes written, or an abort for the
unimplemented E164 variant (`todo!()`). -/
def Address.encode_to : Address → RunResult (List Byte)
  | ⟨.IPv4 ip⟩ => .ok ([0, 1] ++ ip.octets)
  | ⟨.IPv6 ip⟩ => .ok ([0, 2] ++ ip.octets)
  | ⟨.E164 _⟩ => .abort "not yet implemented"

/-- `Address::length()`: 6 for IPv4, 18 for IPv6, an abort (`todo!()`) for
E164. -/
def Address.length : Address → RunResult Nat
  | ⟨.IPv4 _⟩ => .ok 6
  | ⟨.IPv6 _⟩ => .ok 18
  | ⟨.E164 _⟩ => .abort "not yet implemented"

/-- Modelled from the spec: `DiameterMessage` (`src/diameter.rs` is not in
the sources).  §3: a header holding a command identifier, an application
identifier, a flags byte, a hop-by-hop correlation id and an end-to-end id;
the attribute list is irrelevant to the client claims and omitted. -/
structure DiameterMessage where
  command_code : Nat
  application_id : Nat
  flags : Byte
  hop_by_hop_id : Nat
  end_to_end_id : Nat
deriving DecidableEq, Repr

/-- `DiameterMessage::get_hop_by_hop_id()`. -/
def DiameterMessage.get_hop_by_hop_id (m : DiameterMessage) : Nat :=
  m.hop_by_hop_id

/-- `u32::from_be_bytes([a, b, c, d])` as a natural number (the value is
below `2^32`, so no wrap occurs). -/
def u32_from_be_bytes (a b c d : Byte) : Nat :=
  a.val * 16777216 + b.val * 65536 + c.val * 256 + d.val

/-- Generic big-endian value of a byte sequence (spec §6: the envelope
length is a big-endian field). -/
def be_value (bs : List Byte) : Nat :=
  bs.foldl (fun acc b => acc * 256 + b.val) 0

/-- `DiameterClient::read_and_decode_message(reader)`, parametrised by the
message decoder (`DiameterMessage::decode_from`, outside the sources).
Returns the outcome paired with the bytes left unconsumed in the reader:
* fewer than 4 bytes available: `read_exact` fails with an I/O error;
* declared length (low 3 prefix bytes) above `1024 * 1024`: a
  "Message too large to read" client error, body untouched;
* declared length below 4: `buffer.resize(length, 0)` shrinks the buffer
  below 4 elements and the slice `buffer[4..]` is out of range — an abort;
* otherwise `length - 4` further bytes are read (I/O error when the stream
  is shorter) and the 4 prefix bytes plus body are handed to the decoder. -/
def read_and_decode_message (decode : List Byte → RunResult DiameterMessage) :
    List Byte → RunResult DiameterMessage × List Byte
  | b0 :: b1 :: b2 :: b3 :: rest =>
    let length := u32_from_be_bytes 0 b1 b2 b3
    if length > 1024 * 1024 then
      (.err (.ClientError "Message too large to read"), rest)
    else if length < 4 then
      (.abort "range start index 4 out of range", rest)
    else if rest.length < length - 4 then
      (.err .IoError, [])
    else
      (decode ([b0, b1, b2, b3] ++ rest.take (length - 4)), rest.drop (length - 4))
  | _ => (.err .IoError, [])

/-- `DiameterClient::process_decoded_msg(msg_caches, res)`.  The pending
table maps a hop-by-hop id to a one-shot sender, identified by a channel
number; `alive` tells whether a channel's receiver is still alive (a
one-shot send fails when it is not).  Returns the Rust result, the table
after the `remove`, and the deliveries performed (channel, message). -/
def process_decoded_msg (alive : Nat → Bool) (msg_caches : List (Nat × Nat))
    (res : DiameterMessage) :
    Except Error Unit × List (Nat × Nat) × List (Nat × DiameterMessage) :=
  let hop_by_hop := res.get_hop_by_hop_id
  match msg_caches.lookup hop_by_hop with
  | some tx =>
    let caches := msg_caches.eraseP (fun e => e.1 == hop_by_hop)
    if alive tx then (.ok (), caches, [(tx, res)])
    else (.error (.ClientError "Failed to send response"), caches, [])
  | none =>
    (.error (.ClientError ("No request found for hop_by_hop_id " ++
      toString hop_by_hop)), msg_caches, [])

/-- The background task spawned by `DiameterClient::connect` (client.rs
lines 53-68): repeatedly read and decode one message, hand it to
`process_decoded_msg`, and `return` (terminate) on any read error or any
processing error.  The input is the sequence of `read_and_decode_message`
outcomes; the result is the final pending table and all deliveries made
before the loop stopped or the input was exhausted. -/
def connect_read_loop (alive : Nat → Bool) :
    List (Nat × Nat) → List (Except Error DiameterMessage) →
    List (Nat × Nat) × List (Nat × DiameterMessage)
  | msg_caches, [] => (msg_caches, [])
  | msg_caches, .error _ :: _ => (msg_caches, [])
  | msg_caches, .ok res :: more =>
    match process_decoded_msg alive msg_caches res with
    | (.ok _, caches, ds) =>
      let (caches2, ds2) := connect_read_loop alive caches more
      (caches2, ds ++ ds2)
    | (.error _, caches, ds) => (caches, ds)

/-- `DiameterClient` state: the optional shared writer (identified by a
handle number) and the pending-request table mapping hop-by-hop ids to
one-shot sender channel numbers; `next_chan` supplies the fresh channel
number the next `oneshot::channel()` call allocates. -/
structure DiameterClient where
  writer : Option Nat
  msg_caches : List (Nat × Nat)
  next_chan : Nat
deriving DecidableEq, Repr

/-- `DiameterClient::new()`. -/
def DiameterClient.new : DiameterClient :=
  { writer := none, msg_caches := [], next_chan := 0 }

/-- `DiameterRequest`: the request message, the take-once receiver slot
(`Arc<Mutex<Option<Receiver>>>`, `none` once taken) holding a channel
number, and the shared writer handle. -/
structure DiameterRequest where
  request : DiameterMessage
  receiver : Option Nat
  writer : Nat
deriving DecidableEq, Repr

/-- `DiameterRequest::new(request, receiver, writer)`: wraps the receiver
in an occupied slot. -/
def DiameterRequest.new (request : DiameterMessage) (receiver : Nat)
    (writer : Nat) : DiameterRequest :=
  { request := request, receiver := some receiver, writer := writer }

/-- `DiameterClient::request(req)`: with no writer, a "Not connected"
client error and no state change; otherwise allocate a fresh one-shot
channel, insert its sender into the pending table keyed by the request's
hop-by-hop id (a `HashMap::insert`, so an existing entry with that key is
replaced), and return the bundled `DiameterRequest`. -/
def DiameterClient.request (c : DiameterClient) (req : DiameterMessage) :
    Except Error DiameterRequest × DiameterClient :=
  match c.writer with
  | none => (.error (.ClientError "Not connected"), c)
  | some w =>
    let hop_by_hop := req.get_hop_by_hop_id
    let tx := c.next_chan
    let caches := (hop_by_hop, tx) ::
      c.msg_caches.eraseP (fun e => e.1 == hop_by_hop)
    (.ok (DiameterRequest.new req tx w),
     { writer := some w, msg_caches := caches, next_chan := c.next_chan + 1 })

/-- `DiameterRequest::response()`: `take()` the receiver out of the slot
(failing with "Response already taken" when it is already gone), then
await it; `chans` gives each channel's fulfilled value, `none` meaning the
sender was dropped unfulfilled (a receive error).  Returns the result and
the request handle's new state. -/
def DiameterRequest.response (chans : Nat → Option DiameterMessage)
    (r : DiameterRequest) : Except Error DiameterMessage × DiameterRequest :=
  match r.receiver with
  | none => (.error (.ClientError "Response already taken"), r)
  | some rx =>
    match chans rx with
    | some m => (.ok m, { r with receiver := none })
    | none => (.error (.ClientError "Failed to receive response"),
               { r with receiver := none })

theorem u16_from_be_bytes_hi_lo (s : Fin 65536) :
    u16_from_be_bytes (u16_hi s) (u16_lo s) = s := by
  apply Fin.ext
  simp only [u16_from_be_bytes, u16_hi, u16_lo]
  omega

/-- C2: for every IPv4 or IPv6 address value, decoding the bytes produced
by `encode_to` with declared length `length(V)` returns the value itself
consuming all the bytes, and `length(V)` (6 for IPv4, 18 for IPv6) is
exactly the number of bytes `encode_to` writes. -/
theorem address_roundtrip (v : AddressValue) (h : v.isE164 = false) :
    ∃ bs : List Byte,
      (Address.new v).encode_to = .ok bs ∧
      (Address.new v).length = .ok bs.length ∧
      Address.decode_from bs bs.length = (.ok (Address.new v), []) := by
  cases v with
  | IPv4 ip =>
    refine ⟨[0, 1] ++ ip.octets, rfl, rfl, ?_⟩
    cases ip
    simp [Address.decode_from, Ipv4Addr.octets, Address.new]
  | IPv6 ip =>
    refine ⟨[0, 2] ++ ip.octets, rfl, rfl, ?_⟩
    cases ip
    simp [Address.decode_from, Ipv6Addr.octets, Address.new,
      u16_from_be_bytes_hi_lo]
  | E164 os => simp [AddressValue.isE164] at h

theorem address_roundtrip_witness :
    (AddressValue.IPv4 ⟨127, 0, 0, 1⟩).isE164 = false ∧
    ∃ bs : List Byte,
      (Address.new (.IPv4 ⟨127, 0, 0, 1⟩)).encode_to = .ok bs ∧
      (Address.new (.IPv4 ⟨127, 0, 0, 1⟩)).length = .ok bs.length ∧
      Address.decode_from bs bs.length =
        (.ok (Address.new (.IPv4 ⟨127, 0, 0, 1⟩)), []) :=
  ⟨by decide, address_roundtrip (.IPv4 ⟨127, 0, 0, 1⟩) (by decide)⟩

/-- C3: an input whose 2-byte family discriminator is `[0, 8]` (E164)
makes `decode_from` abort (Rust `todo!`) whatever the declared length and
the following bytes, instead of returning an error value; `encode_to` and
`length` likewise abort on every E164 value. -/
theorem address_e164_aborts (rest : List Byte) (len : Nat) (os : OctetString) :
    Address.decode_from (0 :: 8 :: rest) len =
      (.abort "E164 not implemented", rest) ∧
    (Address.new (.E164 os)).encode_to = .abort "not yet implemented" ∧
    (Address.new (.E164 os)).length = .abort "not yet implemented" := by
  refine ⟨?_, rfl, rfl⟩
  simp [Address.decode_from]

/-- C4: family discriminator 1 (IPv4) with declared length ≠ 6 fails with
the length-mismatch decode error before reading any payload byte or
constructing a value; likewise family 2 (IPv6) with declared length ≠ 18. -/
theorem address_decode_length_mismatch (rest : List Byte) (len : Nat) :
    (len ≠ 6 → Address.decode_from (0 :: 1 :: rest) len =
      (.err (.DecodeError "Invalid address length"), rest)) ∧
    (len ≠ 18 → Address.decode_from (0 :: 2 :: rest) len =
      (.err (.DecodeError "Invalid address length"), rest)) := by
  constructor <;> intro h <;> simp [Address.decode_from, h]

theorem address_decode_length_mismatch_witness :
    Address.decode_from [0, 1] 7 =
      (.err (.DecodeError "Invalid address length"), []) ∧
    Address.decode_from [0, 2] 7 =
      (.err (.DecodeError "Invalid address length"), []) :=
  ⟨(address_decode_length_mismatch [] 7).1 (by decide),
   (address_decode_length_mismatch [] 7).2 (by decide)⟩

/-- C5: a 2-byte family discriminator other than `[0, 1]`, `[0, 2]` and
`[0, 8]` yields the unsupported-address-type decode error, and the bytes
after the two discriminator bytes are left unread. -/
theorem address_decode_unsupported_family (b0 b1 : Byte) (rest : List Byte)
    (len : Nat) (h : ¬(b0 = 0 ∧ (b1 = 1 ∨ b1 = 2 ∨ b1 = 8))) :
    Address.decode_from (b0 :: b1 :: rest) len =
      (.err (.DecodeError "Unsupported address type"), rest) := by
  have h1 : ¬(b0 = 0 ∧ b1 = 1) := fun hc => h ⟨hc.1, .inl hc.2⟩
  have h2 : ¬(b0 = 0 ∧ b1 = 2) := fun hc => h ⟨hc.1, .inr (.inl hc.2)⟩
  have h3 : ¬(b0 = 0 ∧ b1 = 8) := fun hc => h ⟨hc.1, .inr (.inr hc.2)⟩
  simp [Address.decode_from, h1, h2, h3]

theorem address_decode_unsupported_family_witness :
    Address.decode_from [0, 3, 9, 9] 6 =
      (.err (.DecodeError "Unsupported address type"), [9, 9]) :=
  address_decode_unsupported_family 0 3 [9, 9] 6 (by decide)

/-- C1 (as written, refuted): with hop-by-hop id 1 pending on channel 0 and
the peer sending first an unmatched response (hop-by-hop 2) and then a
legitimate one (hop-by-hop 1), the loop delivers nothing at all — in
particular not the matching response — and the pending entry stays in the
table: the loop did not continue past the correlation miss. -/
theorem connect_loop_miss_counterexample :
    connect_read_loop (fun _ => true) [(1, 0)]
      [.ok ⟨0, 0, 0, 2, 0⟩, .ok ⟨0, 0, 0, 1, 0⟩] = ([(1, 0)], []) ∧
    ¬ (0, (⟨0, 0, 0, 1, 0⟩ : DiameterMessage)) ∈
      (connect_read_loop (fun _ => true) [(1, 0)]
        [.ok ⟨0, 0, 0, 2, 0⟩, .ok ⟨0, 0, 0, 1, 0⟩]).2 := by
  decide

/-- C1 (amended): a response whose hop-by-hop id has no pending entry makes
`process_decoded_msg` return a "No request found" error, upon which the
background loop terminates at once — the table is left unchanged, nothing
is delivered, and the remaining inbound messages (legitimate or not) are
never processed. -/
theorem connect_loop_miss_terminates (alive : Nat → Bool)
    (caches : List (Nat × Nat)) (m : DiameterMessage)
    (more : List (Except Error DiameterMessage))
    (h : caches.lookup m.get_hop_by_hop_id = none) :
    connect_read_loop alive caches (.ok m :: more) = (caches, []) := by
  simp [connect_read_loop, process_decoded_msg, h]

theorem connect_loop_miss_terminates_witness :
    ([((2 : Nat), (0 : Nat))].lookup
      (DiameterMessage.get_hop_by_hop_id ⟨0, 0, 0, 5, 0⟩) = none) ∧
    connect_read_loop (fun _ => true) [(2, 0)]
      [.ok ⟨0, 0, 0, 5, 0⟩, .ok ⟨0, 0, 0, 2, 0⟩] = ([(2, 0)], []) :=
  ⟨by decide,
   connect_loop_miss_terminates (fun _ => true) [(2, 0)] ⟨0, 0, 0, 5, 0⟩
     [.ok ⟨0, 0, 0, 2, 0⟩] (by decide)⟩

/-- C6: a 4-byte prefix whose declared length (low 3 bytes) exceeds
1 MiB = 1048576 makes `read_and_decode_message` fail with the
"Message too large to read" client error with the body bytes left unread
on the stream, whatever the decoder. -/
theorem read_message_oversize_guard
    (decode : List Byte → RunResult DiameterMessage)
    (b0 b1 b2 b3 : Byte) (rest : List Byte)
    (h : u32_from_be_bytes 0 b1 b2 b3 > 1024 * 1024) :
    read_and_decode_message decode (b0 :: b1 :: b2 :: b3 :: rest) =
      (.err (.ClientError "Message too large to read"), rest) := by
  simp [read_and_decode_message, h]

theorem read_message_oversize_guard_witness :
    u32_from_be_bytes 0 16 0 1 > 1024 * 1024 ∧
    read_and_decode_message (fun _ => .err .IoError) [0, 16, 0, 1, 7] =
      (.err (.ClientError "Message too large to read"), [7]) :=
  ⟨by decide,
   read_message_oversize_guard (fun _ => .err .IoError) 0 16 0 1 [7] (by decide)⟩

/-- C7: `read_and_decode_message` computes the declared length from the
first 4 stream bytes as the big-endian value of `[0, b1, b2, b3]` — the
high byte `b0` is ignored, so the bytes consumed from the stream are the
same for any two prefixes agreeing on the low 3 bytes. -/
theorem read_message_length_low3_bytes (b0 b0' b1 b2 b3 : Byte) :
    u32_from_be_bytes 0 b1 b2 b3 = be_value [0, b1, b2, b3] ∧
    ∀ (decode : List Byte → RunResult DiameterMessage) (rest : List Byte),
      (read_and_decode_message decode (b0 :: b1 :: b2 :: b3 :: rest)).2 =
      (read_and_decode_message decode (b0' :: b1 :: b2 :: b3 :: rest)).2 := by
  constructor
  · simp only [u32_from_be_bytes, be_value, List.foldl]
    push_cast
    ring
  · intro decode rest
    by_cases hbig : u32_from_be_bytes 0 b1 b2 b3 > 1024 * 1024
    · simp [read_and_decode_message, hbig]
    · by_cases hsmall : u32_from_be_bytes 0 b1 b2 b3 < 4
      · simp [read_and_decode_message, hbig, hsmall]
      · by_cases hio : rest.length < u32_from_be_bytes 0 b1 b2 b3 - 4
        · simp [read_and_decode_message, hbig, hsmall, hio]
        · simp [read_and_decode_message, hbig, hsmall, hio]

/-- C10: a 4-byte prefix whose declared length (low 3 bytes) is below 4
drives `read_and_decode_message` into an abort, not an error return: the
buffer is resized below 4 elements and the slice `buffer[4..]` is out of
range, so the background read task is crashed by a panic. -/
theorem read_message_short_length_aborts
    (decode : List Byte → RunResult DiameterMessage)
    (b0 b1 b2 b3 : Byte) (rest : List Byte)
    (h : u32_from_be_bytes 0 b1 b2 b3 < 4) :
    read_and_decode_message decode (b0 :: b1 :: b2 :: b3 :: rest) =
      (.abort "range start index 4 out of range", rest) := by
  have h2 : ¬ u32_from_be_bytes 0 b1 b2 b3 > 1024 * 1024 := by omega
  simp [read_and_decode_message, h, h2]

theorem read_message_short_length_aborts_witness :
    u32_from_be_bytes 0 0 0 3 < 4 ∧
    read_and_decode_message (fun _ => .err .IoError) [0, 0, 0, 3, 9] =
      (.abort "range start index 4 out of range", [9]) :=
  ⟨by decide,
   read_message_short_length_aborts (fun _ => .err .IoError) 0 0 0 3 [9]
     (by decide)⟩

/-- C8: once the completion slot of a request holds a delivered message,
the first `response()` call returns it and empties the take-once slot; the
second call fails with "Response already taken" and leaves the handle
unchanged, so every further call fails the same way. -/
theorem response_double_take (chans : Nat → Option DiameterMessage)
    (r : DiameterRequest) (rx : Nat) (m : DiameterMessage)
    (hr : r.receiver = some rx) (hm : chans rx = some m) :
    (DiameterRequest.response chans r).1 = .ok m ∧
    (DiameterRequest.response chans (DiameterRequest.response chans r).2).1 =
      .error (.ClientError "Response already taken") ∧
    (DiameterRequest.response chans (DiameterRequest.response chans r).2).2 =
      (DiameterRequest.response chans r).2 := by
  simp [DiameterRequest.response, hr, hm]

theorem response_double_take_witness :
    (DiameterRequest.response (fun _ => some ⟨272, 4, 128, 7, 9⟩)
      (DiameterRequest.new ⟨272, 4, 128, 7, 9⟩ 0 0)).1 =
      .ok ⟨272, 4, 128, 7, 9⟩ ∧
    (DiameterRequest.response (fun _ => some ⟨272, 4, 128, 7, 9⟩)
      (DiameterRequest.response (fun _ => some ⟨272, 4, 128, 7, 9⟩)
        (DiameterRequest.new ⟨272, 4, 128, 7, 9⟩ 0 0)).2).1 =
      .error (.ClientError "Response already taken") ∧
    (DiameterRequest.response (fun _ => some ⟨272, 4, 128, 7, 9⟩)
      (DiameterRequest.response (fun _ => some ⟨272, 4, 128, 7, 9⟩)
        (DiameterRequest.new ⟨272, 4, 128, 7, 9⟩ 0 0)).2).2 =
      (DiameterRequest.response (fun _ => some ⟨272, 4, 128, 7, 9⟩)
        (DiameterRequest.new ⟨272, 4, 128, 7, 9⟩ 0 0)).2 :=
  response_double_take (fun _ => some ⟨272, 4, 128, 7, 9⟩)
    (DiameterRequest.new ⟨272, 4, 128, 7, 9⟩ 0 0) 0 ⟨272, 4, 128, 7, 9⟩
    rfl rfl

theorem lookup_eraseP_ne (k a : Nat) (l : List (Nat × Nat)) (h : k ≠ a) :
    (l.eraseP (fun e => e.1 == a)).lookup k = l.lookup k := by
  induction l with
  | nil => rfl
  | cons e t ih =>
    by_cases he : e.1 = a
    · have hk : (k == a) = false := by simp [h]
      simp [List.eraseP_cons, he, List.lookup, hk]
    · have he2 : (e.1 == a) = false := by simp [he]
      by_cases hk : k = e.1
      · simp [List.eraseP_cons, he2, List.lookup, hk]
      · have hk2 : (k == e.1) = false := by simp [hk]
        simp [List.eraseP_cons, he2, List.lookup, hk2, ih]

/-- C9: `request` fails with the "Not connected" client error and changes
nothing when no writer is present; with a writer `w` it returns a handle
bundling the message, the freshly allocated take-once receiver and the
shared writer, and the new pending table maps the message's hop-by-hop id
to the fresh sender — overwriting any previous entry under that id — while
every other id keeps its previous binding. -/
theorem request_registers (c : DiameterClient) (req : DiameterMessage) :
    (c.writer = none →
      c.request req = (.error (.ClientError "Not connected"), c)) ∧
    (∀ w, c.writer = some w →
      (c.request req).1 = .ok (DiameterRequest.new req c.next_chan w) ∧
      ((c.request req).2).writer = some w ∧
      ((c.request req).2).next_chan = c.next_chan + 1 ∧
      ((c.request req).2).msg_caches.lookup req.get_hop_by_hop_id =
        some c.next_chan ∧
      ∀ k, k ≠ req.get_hop_by_hop_id →
        ((c.request req).2).msg_caches.lookup k = c.msg_caches.lookup k) := by
  constructor
  · intro h
    simp [DiameterClient.request, h]
  · intro w hw
    refine ⟨?_, ?_, ?_, ?_, ?_⟩
    · simp [DiameterClient.request, hw]
    · simp [DiameterClient.request, hw]
    · simp [DiameterClient.request, hw]
    · simp [DiameterClient.request, hw, List.lookup]
    · intro k hk
      have hk2 : (k == req.get_hop_by_hop_id) = false := by simp [hk]
      simp [DiameterClient.request, hw, List.lookup, hk2,
        lookup_eraseP_ne k req.get_hop_by_hop_id c.msg_caches hk]

theorem request_registers_witness :
    (DiameterClient.new.request ⟨0, 0, 0, 7, 0⟩ =
      (.error (.ClientError "Not connected"), DiameterClient.new)) ∧
    ((({ writer := some 3, msg_caches := [(7, 2), (4, 1)], next_chan := 5 } :
        DiameterClient).request ⟨0, 0, 0, 7, 0⟩).1 =
      .ok (DiameterRequest.new ⟨0, 0, 0, 7, 0⟩ 5 3)) ∧
    ((({ writer := some 3, msg_caches := [(7, 2), (4, 1)], next_chan := 5 } :
        DiameterClient).request ⟨0, 0, 0, 7, 0⟩).2).msg_caches.lookup
        (DiameterMessage.get_hop_by_hop_id ⟨0, 0, 0, 7, 0⟩) = some 5 ∧
    ((({ writer := some 3, msg_caches := [(7, 2), (4, 1)], next_chan := 5 } :
        DiameterClient).request ⟨0, 0, 0, 7, 0⟩).2).msg_caches.lookup 4 =
      ({ writer := some 3, msg_caches := [(7, 2), (4, 1)], next_chan := 5 } :
        DiameterClient).msg_caches.lookup 4 :=
  ⟨(request_registers DiameterClient.new ⟨0, 0, 0, 7, 0⟩).1 rfl,
   ((request_registers _ ⟨0, 0, 0, 7, 0⟩).2 3 rfl).1,
   (((request_registers _ ⟨0, 0, 0, 7, 0⟩).2 3 rfl).2.2.2).1,
   (((request_registers _ ⟨0, 0, 0, 7, 0⟩).2 3 rfl).2.2.2).2 4 (by decide)⟩
